import Mathlib

/-!
# Verification of the cv_gen core (backend/agents + backend/main)

Shallow embedding of the resilience / extraction / conversation-history
core of the repository:

* `analysis.py` — the retry loop around the generative call
  (`MAX_RETRIES`, `RETRY_DELAY`, linear backoff), the terminal-failure
  diagnostic, and the JSON extraction / repair / fallback pipeline of
  `analyze_screenshot`;
* `chat_manager.py` — `ChatMessage`, `ChatManager` with
  `format_for_prompt`, `format_for_gemini`, `export_session`,
  `import_session`;
* `main.py` — session resolution and message recording in the
  `/refine` and `/reorder` endpoints, including the exact call the
  `/refine` endpoint makes into `editor.refine_resume_data`.

Python dynamic values are embedded as a `Json` tree; the external
`json` library's text round-trip (`json.dumps` / `json.loads` between a
value and its serialized form) is modelled at the value level where the
code only passes data through it, and as an executable parser (`loads`)
where the code's behaviour depends on whether parsing succeeds.
`datetime` instants are represented by their ISO-8601 rendering
(`isoformat` is injective and `fromisoformat` is its inverse, so an
instant and its rendering are interchangeable).
-/

namespace CvGen

/-- JSON-compatible Python values (dicts keep insertion order, modelled
as association lists). `numF` keeps the lexeme of a non-integral number
literal opaque; none of the verified code inspects such values. -/
inductive Json where
  | null : Json
  | bool (b : Bool) : Json
  | num (n : Int) : Json
  | numF (lexeme : String) : Json
  | str (s : String) : Json
  | arr (elems : List Json) : Json
  | obj (members : List (String × Json)) : Json

/-! ## analysis.py — retry loop (`MAX_RETRIES = 3`, `RETRY_DELAY = 2`) -/

def MAX_RETRIES : Nat := 3

def RETRY_DELAY : Nat := 2

/-- The message recorded when an attempt returns an empty response
(`last_error = "Empty response from Gemini API"`). -/
def EMPTY_RESPONSE_ERROR : String := "Empty response from Gemini API"

/-- Outcome of one call to `client.models.generate_content`: either a
response object (identified by its `.text` payload — the only attribute
the retry loop reads) or a raised exception. -/
inductive GenOutcome where
  | ok (text : String) : GenOutcome
  | exn (msg : String) : GenOutcome
deriving DecidableEq

/-- An attempt is transient (retried) iff it raised, or returned a
response whose text is falsy (empty). -/
def isTransient : GenOutcome → Bool
  | .ok t => t = ""
  | .exn _ => true

/-- The error detail the loop records for a failed attempt. -/
def attemptError : GenOutcome → String
  | .ok _ => EMPTY_RESPONSE_ERROR
  | .exn m => m

/-- State after the `for attempt in range(MAX_RETRIES)` loop: the
`response` variable (text of the last response object assigned, `none`
while no call has returned), the `last_error` variable, and the list of
`time.sleep` durations performed, in order. -/
structure RetryResult where
  response : Option String
  lastError : Option String
  delays : List Nat

/-- One pass of the retry loop over the remaining attempt indices,
mirroring `analysis.py` lines 385-413: a non-empty response text breaks
out immediately (no sleep); an empty response assigns `response` and
sets `last_error` to the empty-response message; an exception leaves
`response` untouched and records its message; after any failed attempt
other than the last, the loop sleeps `RETRY_DELAY * (attempt + 1)`. -/
def retryAttempts (call : Nat → GenOutcome) :
    List Nat → Option String → Option String → List Nat → RetryResult
  | [], resp, err, ds => ⟨resp, err, ds⟩
  | a :: rest, resp, err, ds =>
    match call a with
    | .ok t =>
      if t = "" then
        retryAttempts call rest (some t) (some EMPTY_RESPONSE_ERROR)
          (if a < MAX_RETRIES - 1 then ds ++ [RETRY_DELAY * (a + 1)] else ds)
      else ⟨some t, err, ds⟩
    | .exn m =>
      retryAttempts call rest resp (some m)
        (if a < MAX_RETRIES - 1 then ds ++ [RETRY_DELAY * (a + 1)] else ds)

/-- The whole `for attempt in range(MAX_RETRIES)` loop. -/
def retryLoop (call : Nat → GenOutcome) : RetryResult :=
  retryAttempts call (List.range MAX_RETRIES) none none []

/-- The terminal-failure record written to `logs/error.log` before
`analyze_screenshot` returns `None` (lines 416-434): the message
carries the attempt count and the last recorded error, and, when a
response object exists, its introspection is appended. -/
structure RetryDiag where
  lastError : Option String
  attempts : Nat
  responseInfo : Option String

/-- `analyze_screenshot` lines 381-434 as a function of the per-attempt
behaviour: runs the retry loop, then either surfaces the retry-exhausted
failure (first writing the diagnostic record to the sink, then returning
the caller-visible failure — Python `return None`) or hands the
successful response text onward. The second component is the list of
records written to the diagnostic sink. -/
def invokeWithRetry (call : Nat → GenOutcome) :
    Except RetryDiag String × List RetryDiag :=
  let r := retryLoop call
  match r.response with
  | some t =>
    if t = "" then
      let d : RetryDiag := ⟨r.lastError, MAX_RETRIES, some t⟩
      (.error d, [d])
    else (.ok t, [])
  | none =>
    let d : RetryDiag := ⟨r.lastError, MAX_RETRIES, none⟩
    (.error d, [d])

/-- The linear backoff schedule: one delay after each of the first `n`
failed attempts, delay after attempt `i` (0-indexed) being
`RETRY_DELAY * (i + 1)`. -/
def linearSchedule (n : Nat) : List Nat :=
  (List.range n).map (fun i => RETRY_DELAY * (i + 1))

/-- C1. For every behaviour of the generative call in which attempts
`0..N-1` (with `N ≤ MAX_RETRIES - 1 = 2`) are transient failures and
attempt `N` returns non-empty text `t`, the retry loop of
`analyze_screenshot` surfaces the successful response `t` (writing
nothing to the diagnostic sink), and performs exactly `N` backoff
delays, the delay after failed attempt `i` being
`RETRY_DELAY * (i + 1) = 2 * (i + 1)`, so the schedule is strictly
increasing and no delay follows the final (successful) attempt. -/
theorem retry_returns_success_with_linear_backoff
    (call : Nat → GenOutcome) (N : Nat) (t : String)
    (hN : N ≤ MAX_RETRIES - 1)
    (htrans : ∀ i, i < N → isTransient (call i) = true)
    (hsucc : call N = .ok t) (ht : t ≠ "") :
    invokeWithRetry call = (.ok t, []) ∧
    (retryLoop call).delays = linearSchedule N ∧
    (retryLoop call).delays.length = N ∧
    List.Chain' (· < ·) (retryLoop call).delays := by
  have hrange : List.range MAX_RETRIES = [0, 1, 2] := rfl
  have hN2 : N ≤ 2 := hN
  interval_cases N
  · simp [invokeWithRetry, retryLoop, hrange, retryAttempts, hsucc, ht,
      linearSchedule]
  · have h0 := htrans 0 (by norm_num)
    cases hc0 : call 0 with
    | ok t0 =>
      rw [hc0] at h0
      have ht0 : t0 = "" := by simpa [isTransient] using h0
      subst ht0
      simp [invokeWithRetry, retryLoop, hrange, retryAttempts, hc0, hsucc, ht,
        MAX_RETRIES, RETRY_DELAY, linearSchedule] <;> decide
    | exn m0 =>
      simp [invokeWithRetry, retryLoop, hrange, retryAttempts, hc0, hsucc, ht,
        MAX_RETRIES, RETRY_DELAY, linearSchedule] <;> decide
  · have h0 := htrans 0 (by norm_num)
    have h1 := htrans 1 (by norm_num)
    cases hc0 : call 0 with
    | ok t0 =>
      rw [hc0] at h0
      have ht0 : t0 = "" := by simpa [isTransient] using h0
      subst ht0
      cases hc1 : call 1 with
      | ok t1 =>
        rw [hc1] at h1
        have ht1 : t1 = "" := by simpa [isTransient] using h1
        subst ht1
        simp [invokeWithRetry, retryLoop, hrange, retryAttempts, hc0, hc1,
          hsucc, ht, MAX_RETRIES, RETRY_DELAY, linearSchedule] <;> decide <;> decide
      | exn m1 =>
        simp [invokeWithRetry, retryLoop, hrange, retryAttempts, hc0, hc1,
          hsucc, ht, MAX_RETRIES, RETRY_DELAY, linearSchedule] <;> decide <;> decide
    | exn m0 =>
      cases hc1 : call 1 with
      | ok t1 =>
        rw [hc1] at h1
        have ht1 : t1 = "" := by simpa [isTransient] using h1
        subst ht1
        simp [invokeWithRetry, retryLoop, hrange, retryAttempts, hc0, hc1,
          hsucc, ht, MAX_RETRIES, RETRY_DELAY, linearSchedule] <;> decide <;> decide
      | exn m1 =>
        simp [invokeWithRetry, retryLoop, hrange, retryAttempts, hc0, hc1,
          hsucc, ht, MAX_RETRIES, RETRY_DELAY, linearSchedule] <;> decide <;> decide

/-- Closed witness for C1: two transient failures (one exception, one
empty response) followed by a successful third attempt. -/
theorem retry_returns_success_with_linear_backoff_witness :
    invokeWithRetry
        (fun i => if i = 0 then .exn "boom" else if i = 1 then .ok "" else .ok "done") =
      (.ok "done", []) ∧
    (retryLoop
        (fun i => if i = 0 then .exn "boom" else if i = 1 then .ok "" else .ok "done")).delays =
      linearSchedule 2 ∧
    (retryLoop
        (fun i => if i = 0 then .exn "boom" else if i = 1 then .ok "" else .ok "done")).delays.length = 2 ∧
    List.Chain' (· < ·)
      (retryLoop
        (fun i => if i = 0 then .exn "boom" else if i = 1 then .ok "" else .ok "done")).delays :=
  retry_returns_success_with_linear_backoff
    (fun i => if i = 0 then .exn "boom" else if i = 1 then .ok "" else .ok "done")
    2 "done" (by decide)
    (by intro i hi; interval_cases i <;> decide)
    (by decide) (by decide)


/-- C2. If all `MAX_RETRIES` attempts are transient failures, the
invoker surfaces a retry-exhausted failure — never a success value —
whose record carries the attempt count (`MAX_RETRIES = 3`) and the last
recorded error detail (that of the final attempt), and that same record
is written to the diagnostic sink before the failure is surfaced. -/
theorem retry_exhausted_raises_and_logs
    (call : Nat → GenOutcome)
    (hall : ∀ i, i < MAX_RETRIES → isTransient (call i) = true) :
    (∃ d : RetryDiag,
        invokeWithRetry call = (.error d, [d]) ∧
        d.attempts = MAX_RETRIES ∧
        d.lastError = some (attemptError (call (MAX_RETRIES - 1)))) ∧
    ∀ t : String, (invokeWithRetry call).1 ≠ .ok t := by
  have hrange : List.range MAX_RETRIES = [0, 1, 2] := rfl
  have h0 := hall 0 (by norm_num [MAX_RETRIES])
  have h1 := hall 1 (by norm_num [MAX_RETRIES])
  have h2 := hall 2 (by norm_num [MAX_RETRIES])
  cases hc0 : call 0 with
  | ok t0 =>
    rw [hc0] at h0
    have ht0 : t0 = "" := by simpa [isTransient] using h0
    subst ht0
    cases hc1 : call 1 with
    | ok t1 =>
      rw [hc1] at h1
      have ht1 : t1 = "" := by simpa [isTransient] using h1
      subst ht1
      cases hc2 : call 2 with
      | ok t2 =>
        rw [hc2] at h2
        have ht2 : t2 = "" := by simpa [isTransient] using h2
        subst ht2
        simp [invokeWithRetry, retryLoop, hrange, retryAttempts, hc0, hc1, hc2,
          MAX_RETRIES, RETRY_DELAY, attemptError]
      | exn m2 =>
        simp [invokeWithRetry, retryLoop, hrange, retryAttempts, hc0, hc1, hc2,
          MAX_RETRIES, RETRY_DELAY, attemptError]
    | exn m1 =>
      cases hc2 : call 2 with
      | ok t2 =>
        rw [hc2] at h2
        have ht2 : t2 = "" := by simpa [isTransient] using h2
        subst ht2
        simp [invokeWithRetry, retryLoop, hrange, retryAttempts, hc0, hc1, hc2,
          MAX_RETRIES, RETRY_DELAY, attemptError]
      | exn m2 =>
        simp [invokeWithRetry, retryLoop, hrange, retryAttempts, hc0, hc1, hc2,
          MAX_RETRIES, RETRY_DELAY, attemptError]
  | exn m0 =>
    cases hc1 : call 1 with
    | ok t1 =>
      rw [hc1] at h1
      have ht1 : t1 = "" := by simpa [isTransient] using h1
      subst ht1
      cases hc2 : call 2 with
      | ok t2 =>
        rw [hc2] at h2
        have ht2 : t2 = "" := by simpa [isTransient] using h2
        subst ht2
        simp [invokeWithRetry, retryLoop, hrange, retryAttempts, hc0, hc1, hc2,
          MAX_RETRIES, RETRY_DELAY, attemptError]
      | exn m2 =>
        simp [invokeWithRetry, retryLoop, hrange, retryAttempts, hc0, hc1, hc2,
          MAX_RETRIES, RETRY_DELAY, attemptError]
    | exn m1 =>
      cases hc2 : call 2 with
      | ok t2 =>
        rw [hc2] at h2
        have ht2 : t2 = "" := by simpa [isTransient] using h2
        subst ht2
        simp [invokeWithRetry, retryLoop, hrange, retryAttempts, hc0, hc1, hc2,
          MAX_RETRIES, RETRY_DELAY, attemptError]
      | exn m2 =>
        simp [invokeWithRetry, retryLoop, hrange, retryAttempts, hc0, hc1, hc2,
          MAX_RETRIES, RETRY_DELAY, attemptError]

/-- Closed witness for C2: one empty response followed by two distinct
exceptions; the surfaced record carries the final attempt's error. -/
theorem retry_exhausted_raises_and_logs_witness :
    (∃ d : RetryDiag,
        invokeWithRetry
            (fun i => if i = 0 then .ok "" else .exn ("err" ++ toString i)) =
          (.error d, [d]) ∧
        d.attempts = MAX_RETRIES ∧
        d.lastError =
          some (attemptError
            ((fun i => if i = 0 then .ok "" else .exn ("err" ++ toString i))
              (MAX_RETRIES - 1)))) ∧
    ∀ t : String,
      (invokeWithRetry
          (fun i => if i = 0 then .ok "" else .exn ("err" ++ toString i))).1 ≠
        .ok t :=
  retry_exhausted_raises_and_logs
    (fun i => if i = 0 then .ok "" else .exn ("err" ++ toString i))
    (by decide)

/-! ## analysis.py — JSON extraction pipeline (lines 436-518)

String utilities mirroring the Python operations used by the pipeline:
`str.split` (Lean's `String.splitOn` has the same semantics for the
non-empty separators used here), `str.find` / `str.rfind`, slicing, and
the `re.sub` removing trailing commas. -/

/-- Python `str.split(sep)` on character lists (non-empty separator;
splits at each non-overlapping occurrence, left to right). Fuel-driven
so that it reduces by computation; `pySplit` supplies enough fuel. -/
def splitOnListAux (sep : List Char) : Nat → List Char → List (List Char)
  | 0, cs => [cs]
  | _ + 1, [] => [[]]
  | fuel + 1, c :: cs =>
    if sep.isPrefixOf (c :: cs) then
      [] :: splitOnListAux sep fuel ((c :: cs).drop sep.length)
    else
      match splitOnListAux sep fuel cs with
      | [] => [[c]]
      | p :: ps => (c :: p) :: ps

/-- Python `t.split(sep)` for a non-empty separator. -/
def pySplit (t sep : String) : List String :=
  (splitOnListAux sep.toList (t.length + 1) t.toList).map String.mk

/-- Python `text.find(c)` (as `Option` instead of `-1`). -/
def pyFind (t : String) (c : Char) : Option Nat :=
  t.toList.findIdx? (· = c)

/-- Python `text.rfind(c)` (as `Option` instead of `-1`). -/
def pyRFind (t : String) (c : Char) : Option Nat :=
  (t.toList.reverse.findIdx? (· = c)).map (fun i => t.toList.length - 1 - i)

/-- Python `text[s:e]` for non-negative bounds. -/
def pySlice (t : String) (s e : Nat) : String :=
  String.mk ((t.toList.drop s).take (e - s))

/-- Step 1 of the extraction pipeline (lines 439-447): if a
json-tagged fence is present take `text.split("```json")[1].split("```")[0]`;
otherwise, if a fence pair is present, take the content of the first
fenced block (the first regex match of ```(?:json)?(.*?)``` — since no
"```json" occurs in this branch, that is the text between the first two
occurrences of "```"); otherwise leave the text unchanged. -/
def stripFences (t : String) : String :=
  if (pySplit t "```json").length > 1 then
    (pySplit ((pySplit t "```json").getD 1 "") "```").headD ""
  else if (pySplit t "```").length > 1 then
    if (pySplit t "```").length ≥ 3 then (pySplit t "```").getD 1 "" else t
  else t

/-- Step 2 (lines 449-454): slice from the first `{` to the last `}`
when both exist, else leave the text unchanged. -/
def braceSlice (t : String) : String :=
  match pyFind t '{', pyRFind t '}' with
  | some s, some e => pySlice t s (e + 1)
  | _, _ => t

/-- Characters matched by the regex class `\s` (ASCII). -/
def isReSpace (c : Char) : Bool :=
  c = ' ' || c = '\t' || c = '\n' || c = '\r' || c = '\x0b' || c = '\x0c'

/-- Helper for the `re.sub(r',\s*([\]}])', r'\1', text)` step: given the
characters following a comma, if whitespace directly followed by `]` or
`}` comes next, return that bracket and the remaining characters. -/
def wsThenClose : List Char → Option (Char × List Char)
  | [] => none
  | c :: cs =>
    if isReSpace c then wsThenClose cs
    else if c = ']' || c = '}' then some (c, cs)
    else none

/-- Step 3 (lines 456-459): `re.sub(r',\s*([\]}])', r'\1', text)` —
scanning left to right, a comma followed by whitespace and a closing
bracket is replaced by the bracket alone, and scanning resumes after
the bracket. Fuel-driven (each step consumes at least one character);
`removeTrailingCommas` supplies enough fuel. -/
def removeTrailingCommasAux : Nat → List Char → List Char
  | 0, cs => cs
  | _ + 1, [] => []
  | fuel + 1, c :: cs =>
    if c = ',' then
      match wsThenClose cs with
      | some (b, rest) => b :: removeTrailingCommasAux fuel rest
      | none => c :: removeTrailingCommasAux fuel cs
    else c :: removeTrailingCommasAux fuel cs

def removeTrailingCommas (cs : List Char) : List Char :=
  removeTrailingCommasAux (cs.length + 1) cs

/-! ### A model of `json.loads`

Executable recursive-descent parser following the grammar the Python
`json` module accepts (JSON values plus `NaN`/`Infinity`/`-Infinity`;
strings with the standard escapes — surrogate-pair `\uXXXX` escapes are
not modelled; numbers per the `NUMBER_RE` regex, non-integral ones kept
as opaque lexemes; duplicate object keys resolved last-wins at the
first occurrence position, as for a Python dict). All recursion is
fuel-driven (structural), so parses of concrete strings reduce by
computation. -/

/-- JSON whitespace (the `json` module's `_w` class). -/
def jsonWs (c : Char) : Bool :=
  c = ' ' || c = '\t' || c = '\n' || c = '\r'

def skipWs : List Char → List Char
  | [] => []
  | c :: cs => if jsonWs c then skipWs cs else c :: cs

def hexVal (c : Char) : Option Nat :=
  if '0' ≤ c && c ≤ '9' then some (c.toNat - 48)
  else if 'a' ≤ c && c ≤ 'f' then some (c.toNat - 87)
  else if 'A' ≤ c && c ≤ 'F' then some (c.toNat - 55)
  else none

/-- Single-character string escapes. -/
def escChar : Char → Option Char
  | '"' => some '"'
  | '\\' => some '\\'
  | '/' => some '/'
  | 'b' => some (Char.ofNat 8)
  | 'f' => some (Char.ofNat 12)
  | 'n' => some '\n'
  | 'r' => some '\r'
  | 't' => some '\t'
  | _ => none

/-- Parse the body of a JSON string after the opening quote, returning
the decoded characters and the input after the closing quote. -/
def parseJStr : Nat → List Char → Option (List Char × List Char)
  | 0, _ => none
  | _ + 1, [] => none
  | fuel + 1, c :: cs =>
    if c = '"' then some ([], cs)
    else if c = '\\' then
      match cs with
      | [] => none
      | e :: cs2 =>
        if e = 'u' then
          match cs2 with
          | h1 :: h2 :: h3 :: h4 :: cs3 =>
            match hexVal h1, hexVal h2, hexVal h3, hexVal h4 with
            | some a, some b, some v3, some v4 =>
              let n := ((a * 16 + b) * 16 + v3) * 16 + v4
              if n < 0xd800 || 0xdfff < n then
                (parseJStr fuel cs3).map (fun p => (Char.ofNat n :: p.1, p.2))
              else none
            | _, _, _, _ => none
          | _ => none
        else
          match escChar e with
          | some d => (parseJStr fuel cs2).map (fun p => (d :: p.1, p.2))
          | none => none
    else if c.toNat < 0x20 then none
    else (parseJStr fuel cs).map (fun p => (c :: p.1, p.2))

/-- Value of a digit string. -/
def digitsVal (ds : List Char) : Nat :=
  ds.foldl (fun acc c => acc * 10 + (c.toNat - 48)) 0

/-- Integer part per `NUMBER_RE`: `0` alone or a nonzero digit followed
by digits (leading zeros rejected). -/
def parseIntPart : List Char → Option (List Char × List Char)
  | [] => none
  | c :: cs =>
    if c = '0' then some ([c], cs)
    else if c.isDigit then
      some (c :: (cs.takeWhile Char.isDigit), cs.dropWhile Char.isDigit)
    else none

/-- Optional fraction part `(\.\d+)?`. -/
def parseFracPart : List Char → List Char × List Char
  | '.' :: cs =>
    match cs.takeWhile Char.isDigit with
    | [] => ([], '.' :: cs)
    | ds => ('.' :: ds, cs.dropWhile Char.isDigit)
  | cs => ([], cs)

/-- Optional exponent part `([eE][-+]?\d+)?`. -/
def parseExpPart : List Char → List Char × List Char
  | c :: cs =>
    if c = 'e' || c = 'E' then
      match cs with
      | s :: cs2 =>
        if s = '+' || s = '-' then
          match cs2.takeWhile Char.isDigit with
          | [] => ([], c :: s :: cs2)
          | ds => (c :: s :: ds, cs2.dropWhile Char.isDigit)
        else
          match cs.takeWhile Char.isDigit with
          | [] => ([], c :: cs)
          | ds => (c :: ds, cs.dropWhile Char.isDigit)
      | [] => ([], [c])
    else ([], c :: cs)
  | [] => ([], [])

/-- Number parsing per the `json` module's `NUMBER_RE`; an integral
lexeme becomes `Json.num`, otherwise the lexeme is kept opaque. -/
def parseNumber (cs : List Char) : Option (Json × List Char) :=
  let (neg, cs1) := match cs with
    | '-' :: r => (true, r)
    | r => (false, r)
  match parseIntPart cs1 with
  | none => none
  | some (ip, rest1) =>
    match parseFracPart rest1 with
    | (fp, rest2) =>
      match parseExpPart rest2 with
      | (ep, rest3) =>
        if fp.isEmpty && ep.isEmpty then
          let v : Int := Int.ofNat (digitsVal ip)
          some (Json.num (if neg then -v else v), rest1)
        else
          some (Json.numF
            (String.mk ((if neg then ['-'] else []) ++ ip ++ fp ++ ep)), rest3)

/-- Consume an expected literal. -/
def dropLit (lit : List Char) (cs : List Char) : Option (List Char) :=
  if lit.isPrefixOf cs then some (cs.drop lit.length) else none

/-- Python-dict member insertion: replace the value at the first
occurrence of the key, else append. -/
def upsert : List (String × Json) → String → Json → List (String × Json)
  | [], k, v => [(k, v)]
  | (k0, v0) :: rest, k, v =>
    if k0 = k then (k0, v) :: rest else (k0, v0) :: upsert rest k v

/-- Parser state: a plain value, the member list of an object in
progress, or the element list of an array in progress. -/
inductive PMode where
  | value : PMode
  | members (acc : List (String × Json)) : PMode
  | elems (acc : List Json) : PMode

/-- The recursive-descent core: parse one JSON value (leading
whitespace allowed) / the members of an object starting at a key / the
elements of an array starting at a value, returning the value and the
remaining input. -/
def parseJ : Nat → PMode → List Char → Option (Json × List Char)
  | 0, _, _ => none
  | fuel + 1, .value, cs =>
    (match skipWs cs with
    | [] => none
    | c :: rest =>
      if c = '{' then
        match skipWs rest with
        | '}' :: rest2 => some (Json.obj [], rest2)
        | rest2 => parseJ fuel (.members []) rest2
      else if c = '[' then
        match skipWs rest with
        | ']' :: rest2 => some (Json.arr [], rest2)
        | rest2 => parseJ fuel (.elems []) rest2
      else if c = '"' then
        (parseJStr (rest.length + 1) rest).map
          (fun p => (Json.str (String.mk p.1), p.2))
      else if c = 't' then
        (dropLit ['r', 'u', 'e'] rest).map (fun r => (Json.bool true, r))
      else if c = 'f' then
        (dropLit ['a', 'l', 's', 'e'] rest).map (fun r => (Json.bool false, r))
      else if c = 'n' then
        (dropLit ['u', 'l', 'l'] rest).map (fun r => (Json.null, r))
      else if c = 'N' then
        (dropLit ['a', 'N'] rest).map (fun r => (Json.numF "NaN", r))
      else if c = 'I' then
        (dropLit ['n', 'f', 'i', 'n', 'i', 't', 'y'] rest).map
          (fun r => (Json.numF "Infinity", r))
      else if c = '-' then
        match parseNumber (c :: rest) with
        | some p => some p
        | none =>
          (dropLit ['I', 'n', 'f', 'i', 'n', 'i', 't', 'y'] rest).map
            (fun r => (Json.numF "-Infinity", r))
      else parseNumber (c :: rest))
  | fuel + 1, .members acc, cs =>
    (match cs with
    | '"' :: rest =>
      match parseJStr (rest.length + 1) rest with
      | none => none
      | some (k, rest2) =>
        match skipWs rest2 with
        | ':' :: rest3 =>
          match parseJ fuel .value rest3 with
          | none => none
          | some (v, rest4) =>
            let acc2 := upsert acc (String.mk k) v
            match skipWs rest4 with
            | ',' :: rest5 => parseJ fuel (.members acc2) (skipWs rest5)
            | '}' :: rest5 => some (Json.obj acc2, rest5)
            | _ => none
        | _ => none
    | _ => none)
  | fuel + 1, .elems acc, cs =>
    (match parseJ fuel .value cs with
    | none => none
    | some (v, rest) =>
      match skipWs rest with
      | ',' :: rest2 => parseJ fuel (.elems (acc ++ [v])) rest2
      | ']' :: rest2 => some (Json.arr (acc ++ [v]), rest2)
      | _ => none)

/-- `json.loads`: parse one value and require only whitespace to
remain. -/
def loads (s : String) : Option Json :=
  match parseJ (s.length + 1) .value s.toList with
  | some (j, rest) => if (skipWs rest).isEmpty then some j else none
  | none => none

/-- The safe fallback schema returned when parsing fails
(`analysis.py` lines 476-518). -/
def FALLBACK_SCHEMA : Json :=
  Json.obj
    [("html_template", Json.str "\n                <div class=\"resume-container\">\n                    <h1>\x7b\x7bbasics.name\x7d\x7d</h1>\n                    <h2>\x7b\x7bbasics.label\x7d\x7d</h2>\n                    <p>\x7b\x7bbasics.email\x7d\x7d | \x7b\x7bbasics.phone\x7d\x7d</p>\n                    <hr/>\n                    <div class=\"section\">\n                        <h3>Experience</h3>\n                        \x7b\x7b#work\x7d\x7d\n                        <div class=\"item\">\n                            <h4>\x7b\x7bposition\x7d\x7d - \x7b\x7bcompany\x7d\x7d</h4>\n                            <p>\x7b\x7bstartDate\x7d\x7d - \x7b\x7bendDate\x7d\x7d</p>\n                            <p>\x7b\x7bsummary\x7d\x7d</p>\n                        </div>\n                        \x7b\x7b/work\x7d\x7d\n                    </div>\n                </div>\n            "),
     ("form_schema", Json.obj
       [("basics", Json.obj
         [("name", Json.obj [("type", Json.str "text"), ("label", Json.str "Full Name")]),
          ("label", Json.obj [("type", Json.str "text"), ("label", Json.str "Job Title")]),
          ("email", Json.obj [("type", Json.str "text"), ("label", Json.str "Email")]),
          ("phone", Json.obj [("type", Json.str "text"), ("label", Json.str "Phone")])]),
        ("work", Json.obj
         [("type", Json.str "array"),
          ("label", Json.str "Work Experience"),
          ("items", Json.obj
           [("company", Json.obj [("type", Json.str "text"), ("label", Json.str "Company")]),
            ("position", Json.obj [("type", Json.str "text"), ("label", Json.str "Position")]),
            ("startDate", Json.obj [("type", Json.str "text"), ("label", Json.str "Start Date")]),
            ("endDate", Json.obj [("type", Json.str "text"), ("label", Json.str "End Date")]),
            ("summary", Json.obj [("type", Json.str "textarea"), ("label", Json.str "Description")])])])]),
     ("resume_data", Json.obj
       [("basics", Json.obj
         [("name", Json.str "Your Name"),
          ("label", Json.str "Professional Title")]),
        ("work", Json.arr [])])]

/-- The record written to `error_parse.log` on a parse failure (line
471-472): the parse error together with the cleaned text and the
original response text. -/
structure ParseDiag where
  cleanedText : String
  originalText : String
deriving DecidableEq

/-- The three cleanup steps applied to the response text, in source
order (lines 439-459). -/
def cleanResponseText (raw : String) : String :=
  String.mk (removeTrailingCommas (braceSlice (stripFences raw)).toList)

/-- The extraction pipeline of `analyze_screenshot` (lines 436-518):
clean the text, try `json.loads`, and on failure write the diagnostic
record and return the fallback schema instead of propagating the
error.  The second component is the record written to
`error_parse.log`, if any. -/
def analyze_json_extraction (raw : String) : Json × Option ParseDiag :=
  let cleaned := cleanResponseText raw
  match loads cleaned with
  | some j => (j, none)
  | none => (FALLBACK_SCHEMA, some ⟨cleaned, raw⟩)

/-- Association-list lookup on the members of a JSON object (Python
`d[k]` on a dict). -/
def jLookup (k : String) : List (String × Json) → Option Json
  | [] => none
  | (k0, v) :: rest => if k0 = k then some v else jLookup k rest

/-- C4. For the fenced input with a trailing comma,
`text = "```json\n{"a":1,}\n```"` (braces written escaped), the
extraction pipeline yields exactly the object `{"a": 1}` and writes no
parse diagnostic. -/
theorem fenced_trailing_comma_extracts_object :
    analyze_json_extraction "```json\n\x7b\"a\":1,\x7d\n```" =
      (Json.obj [("a", Json.num 1)], none) := rfl

/-- Counterexample to C3 as stated: `"[]"` contains no `{` and no `}`,
yet the cleaned text parses (as a JSON array), so extraction returns
that array — not the FallbackDocument — and writes nothing to the
diagnostic sink. -/
theorem braceless_text_can_still_parse :
    pyFind "[]" '{' = none ∧ pyRFind "[]" '}' = none ∧
    analyze_json_extraction "[]" = (Json.arr [], none) ∧
    Json.arr [] ≠ FALLBACK_SCHEMA :=
  ⟨rfl, rfl, rfl, fun h => Json.noConfusion h⟩

/-- C3 (amended). For every response text whose cleaned form fails JSON
parsing — the empty string among them — extraction returns the
FallbackDocument after writing the parse diagnostic (cleaned and
original text) to the sink; and the FallbackDocument is a JSON object
whose `resume_data` carries a `basics` identity object and an empty
`work` list. -/
theorem parse_failure_returns_fallback (raw : String)
    (h : loads (cleanResponseText raw) = none) :
    analyze_json_extraction raw =
      (FALLBACK_SCHEMA, some ⟨cleanResponseText raw, raw⟩) ∧
    (∃ ms, FALLBACK_SCHEMA = Json.obj ms ∧
      ∃ rd, jLookup "resume_data" ms = some (Json.obj rd) ∧
        (∃ bs, jLookup "basics" rd = some (Json.obj bs)) ∧
        jLookup "work" rd = some (Json.arr [])) := by
  constructor
  · simp [analyze_json_extraction, h]
  · exact ⟨_, rfl, _, rfl, ⟨_, rfl⟩, rfl⟩

/-- Closed witness for C3 (amended) at the empty response text. -/
theorem parse_failure_returns_fallback_witness :
    analyze_json_extraction "" =
      (FALLBACK_SCHEMA, some ⟨cleanResponseText "", ""⟩) ∧
    (∃ ms, FALLBACK_SCHEMA = Json.obj ms ∧
      ∃ rd, jLookup "resume_data" ms = some (Json.obj rd) ∧
        (∃ bs, jLookup "basics" rd = some (Json.obj bs)) ∧
        jLookup "work" rd = some (Json.arr [])) :=
  parse_failure_returns_fallback "" rfl

/-! ## chat_manager.py — conversation store -/

/-- Python `str.upper()` (ASCII; the roles used are ASCII). -/
def pyUpper (s : String) : String :=
  String.mk (s.toList.map Char.toUpper)

mutual

/-- Python `repr()` of a JSON-compatible value, as interpolated inside
containers by `str()` (string escapes not re-encoded; the verified
properties never inspect this rendering). -/
def pyRepr : Json → String
  | .null => "None"
  | .bool true => "True"
  | .bool false => "False"
  | .num n => toString n
  | .numF l => l
  | .str s => "'" ++ s ++ "'"
  | .arr xs => "[" ++ String.intercalate ", " (pyReprList xs) ++ "]"
  | .obj ms => "\x7b" ++ String.intercalate ", " (pyReprMembers ms) ++ "\x7d"

def pyReprList : List Json → List String
  | [] => []
  | x :: xs => pyRepr x :: pyReprList xs

def pyReprMembers : List (String × Json) → List String
  | [] => []
  | (k, v) :: ms => ("'" ++ k ++ "': " ++ pyRepr v) :: pyReprMembers ms

end

/-- Python `str()` as used in f-string interpolation. -/
def pyStr : Json → String
  | .str s => s
  | j => pyRepr j

/-- `ChatMessage` (chat_manager.py lines 18-33). The constructor's
`metadata or \x7b\x7d` and `timestamp or datetime.now()` defaults are applied
at construction sites; `timestamp` holds the instant's ISO-8601
rendering. -/
structure ChatMessage where
  role : String
  content : String
  message_type : String
  metadata : List (String × Json)
  timestamp : String

/-- Association lookup in an insertion-ordered dict. -/
def lookupSession : List (String × List ChatMessage) → String →
    Option (List ChatMessage)
  | [], _ => none
  | (k, v) :: rest, sid => if k = sid then some v else lookupSession rest sid

/-- Python dict assignment `d[sid] = v`: replace in place if the key
exists, else append. -/
def setSession : List (String × List ChatMessage) → String →
    List ChatMessage → List (String × List ChatMessage)
  | [], sid, v => [(sid, v)]
  | (k, v0) :: rest, sid, v =>
    if k = sid then (k, v) :: rest else (k, v0) :: setSession rest sid v

/-- `ChatManager` (lines 58-68): the `session_id -> List[ChatMessage]`
map, insertion-ordered. -/
structure ChatManager where
  sessions : List (String × List ChatMessage)

/-- `create_session` (lines 70-73): no-op when the session exists. -/
def ChatManager.create_session (m : ChatManager) (sid : String) : ChatManager :=
  match lookupSession m.sessions sid with
  | some _ => m
  | none => ⟨m.sessions ++ [(sid, [])]⟩

/-- `add_message` (lines 75-93): create the session if absent, then
append a message stamped with the current instant `now`. -/
def ChatManager.add_message (m : ChatManager)
    (sid role content message_type : String)
    (metadata : Option (List (String × Json))) (now : String) : ChatManager :=
  let m := if (lookupSession m.sessions sid).isSome then m
           else m.create_session sid
  ⟨setSession m.sessions sid
     ((lookupSession m.sessions sid).getD [] ++
      [⟨role, content, message_type, metadata.getD [], now⟩])⟩

/-- `get_history` (lines 95-97): `sessions.get(session_id, [])`. -/
def ChatManager.get_history (m : ChatManager) (sid : String) :
    List ChatMessage :=
  (lookupSession m.sessions sid).getD []

/-- `get_message_count` (lines 204-206). -/
def ChatManager.get_message_count (m : ChatManager) (sid : String) : Nat :=
  (m.get_history sid).length

/-- Python `l[-n:]` for `n > 0`. -/
def lastN {α : Type} (n : Nat) (l : List α) : List α :=
  l.drop (l.length - n)

/-- The two selection steps of `format_for_prompt` (lines 121-127):
filter out system messages when `include_system` is false, THEN apply
the `max_messages` suffix window (`if max_messages:` — `None` and `0`
are both falsy, so neither limits). -/
def selectForPrompt (msgs : List ChatMessage) (max_messages : Option Nat)
    (include_system : Bool) : List ChatMessage :=
  let msgs := if include_system then msgs
              else msgs.filter (fun m => m.role ≠ "system")
  match max_messages with
  | some n => if n ≠ 0 then lastN n msgs else msgs
  | none => msgs

/-- The role label map of `format_for_prompt` (lines 136-140). -/
def roleLabel (r : String) : String :=
  if r = "user" then "USER"
  else if r = "assistant" then "AGENT"
  else if r = "system" then "SYSTEM"
  else pyUpper r

/-- The lines rendered for one message (lines 135-152). -/
def msgLines (msg : ChatMessage) : List String :=
  let type_label := if msg.message_type ≠ "text"
                    then "[" ++ pyUpper msg.message_type ++ "]" else ""
  ["\n" ++ roleLabel msg.role ++ " " ++ type_label ++ ":",
   msg.content.take 500] ++
  (if msg.metadata.isEmpty then [] else
    (match jLookup "action" msg.metadata with
     | some v => ["  → Action: " ++ pyStr v]
     | none => []) ++
    (match jLookup "sections_reordered" msg.metadata with
     | some v => ["  → Sections reordered: " ++ pyStr v]
     | none => []))

/-- The `"=" * 50` separator. -/
def eqBar : String := String.mk (List.replicate 50 '=')

/-- `format_for_prompt` (lines 104-155). -/
def ChatManager.format_for_prompt (m : ChatManager) (sid : String)
    (max_messages : Option Nat) (include_system : Bool) : String :=
  let messages := selectForPrompt (m.get_history sid) max_messages include_system
  if messages.isEmpty then "No previous conversation history."
  else
    String.intercalate "\n"
      (["Previous conversation context:", eqBar] ++
       (messages.map msgLines).join ++ ["\n" ++ eqBar])

/-- One `\x7b'text': ...\x7d` part of a Gemini turn. -/
structure GPart where
  text : String

/-- One `\x7b'role': ..., 'parts': [...]\x7d` turn of the Gemini format. -/
structure GTurn where
  role : String
  parts : List GPart

/-- The per-message role mapping of `format_for_gemini` (lines
175-191): `system` becomes a user turn with a visible context tag,
`assistant` becomes the provider's `model` turn, anything else stays a
user turn with unchanged content. -/
def geminiTurn (msg : ChatMessage) : GTurn :=
  if msg.role = "system" then ⟨"user", [⟨"[SYSTEM CONTEXT] " ++ msg.content⟩]⟩
  else if msg.role = "assistant" then ⟨"model", [⟨msg.content⟩]⟩
  else ⟨"user", [⟨msg.content⟩]⟩

/-- `format_for_gemini` (lines 157-193): suffix window (`if
max_messages:`, so `None` and `0` are both no limit), then the role
mapping in order. -/
def ChatManager.format_for_gemini (m : ChatManager) (sid : String)
    (max_messages : Option Nat) : List GTurn :=
  let messages := m.get_history sid
  let messages := match max_messages with
    | some n => if n ≠ 0 then lastN n messages else messages
    | none => messages
  messages.map geminiTurn

/-- `ChatMessage.to_dict` (lines 35-43); the timestamp is serialized by
`isoformat`, i.e. as its rendering. -/
def ChatMessage.to_dict (m : ChatMessage) : Json :=
  Json.obj
    [("role", .str m.role), ("content", .str m.content),
     ("message_type", .str m.message_type), ("metadata", .obj m.metadata),
     ("timestamp", .str m.timestamp)]

/-- `ChatMessage.from_dict` (lines 45-55): `data['role']`,
`data['content']`, `data.get('message_type', 'text')`,
`data.get('metadata', \x7b\x7d)`, `fromisoformat(data['timestamp'])` when
present (else the constructor stamps `now`). `none` models the raised
`KeyError`/`TypeError` when the dict does not have the expected shape
representable in the typed model. -/
def ChatMessage.from_dict (now : String) (j : Json) : Option ChatMessage :=
  match j with
  | Json.obj data =>
    (match jLookup "timestamp" data with
     | some (Json.str t) => some (some t)
     | some _ => none
     | none => some none).bind fun ts =>
    match jLookup "role" data, jLookup "content" data with
    | some (Json.str role), some (Json.str content) =>
      (match jLookup "message_type" data with
       | some (Json.str t) => some t
       | some _ => none
       | none => some "text").bind fun mt =>
      (match jLookup "metadata" data with
       | some (Json.obj ms) => some ms
       | some _ => none
       | none => some ([] : List (String × Json))).bind fun md =>
      some ⟨role, content, mt, md, ts.getD now⟩
    | _, _ => none
  | _ => none

/-- `get_history_dict` (lines 99-102). -/
def ChatManager.get_history_dict (m : ChatManager) (sid : String) :
    List Json :=
  (m.get_history sid).map ChatMessage.to_dict

/-- `export_session` (lines 208-211): `json.dumps(history, indent=2)`.
The textual leg of `dumps` is a lossless rendering of the JSON tree, so
the export is modelled by the serialized value itself. -/
def ChatManager.export_session (m : ChatManager) (sid : String) : Json :=
  Json.arr (m.get_history_dict sid)

/-- The list comprehension `[ChatMessage.from_dict(msg) for msg in
data]`: `none` as soon as one element fails. -/
def fromDictList (now : String) : List Json → Option (List ChatMessage)
  | [] => some []
  | x :: xs =>
    match ChatMessage.from_dict now x with
    | none => none
    | some y => (fromDictList now xs).map (fun ys => y :: ys)

/-- `import_session` (lines 213-216): `json.loads`, then rebuild each
message with `from_dict` and assign `sessions[session_id]`; `none`
models the exceptions `loads`/`from_dict` raise on malformed data. -/
def ChatManager.import_session (m : ChatManager) (sid : String)
    (data : Json) (now : String) : Option ChatManager :=
  match data with
  | Json.arr items =>
    (fromDictList now items).map
      (fun msgs => ChatManager.mk (setSession m.sessions sid msgs))
  | _ => none

/-! ## main.py — session resolution and the /refine and /reorder
endpoints -/

/-- `session_id = request.session_id or str(uuid.uuid4())` (main.py
lines 251 and 301): Python `or` falls through on a falsy (absent or
empty) id; `fresh` stands for the freshly minted `uuid4` string. -/
def resolveSessionId (reqSid : Option String) (fresh : String) : String :=
  match reqSid with
  | some s => if s = "" then fresh else s
  | none => fresh

/-- `if session_id not in chat_manager.sessions:
chat_manager.create_session(session_id)` (lines 252-253, 302-303). -/
def ensureSession (m : ChatManager) (sid : String) : ChatManager :=
  if (lookupSession m.sessions sid).isSome then m else m.create_session sid

/-- `RefineRequest` (lines 237-241). -/
structure RefineRequest where
  resume_data : Json
  user_request : String
  image_base64 : Option String
  session_id : Option String

/-- `ReorderRequest` (lines 288-291). -/
structure ReorderRequest where
  html : String
  order : List String
  session_id : Option String

/-- Session resolution plus the user-message record of `/refine`
(lines 250-261). -/
def refineSessionSetup (req : RefineRequest) (fresh : String)
    (m : ChatManager) (now : String) : String × ChatManager :=
  let sid := resolveSessionId req.session_id fresh
  let m := ensureSession m sid
  (sid, m.add_message sid "user" req.user_request "edit" none now)

/-- The content of the user message recorded by `/reorder` (line
309). -/
def reorderContent (order : List String) : String :=
  "Rearranged sections to new order: " ++
    String.intercalate ", " (order.take 5) ++
    (if order.length > 5 then "..." else "")

/-- Session resolution plus the user-message record of `/reorder`
(lines 300-312). -/
def reorderSessionSetup (req : ReorderRequest) (fresh : String)
    (m : ChatManager) (now : String) : String × ChatManager :=
  let sid := resolveSessionId req.session_id fresh
  let m := ensureSession m sid
  (sid, m.add_message sid "user" (reorderContent req.order) "rearrange"
          (some [("new_order", Json.arr (req.order.map Json.str))]) now)

/-! ### The /refine endpoint body (lines 243-286) and the editor call

`editor.refine_resume_data` is declared (editor.py line 10) as
`def refine_resume_data(current_data, user_request, image_base64=None)`;
`main.py` line 267-272 calls it with three positional arguments AND the
keyword argument `chat_context=...`.  Python raises `TypeError` at the
call when a keyword argument matches no parameter, before the callee
body runs. -/

/-- The parameter names of `editor.refine_resume_data`. -/
def refine_resume_data_params : List String :=
  ["current_data", "user_request", "image_base64"]

/-- What the editor agent's body would produce if it ran: a parsed
JSON document, `None` (empty response or JSON decode error), or a
raised exception. -/
inductive EditorResult where
  | doc (d : Json) : EditorResult
  | noneResult : EditorResult
  | raisesExn (msg : String) : EditorResult

/-- Python call semantics for the keyword arguments of a plain
function: if any keyword name matches no declared parameter the call
raises `TypeError` and the body never runs. -/
def callWithKeywords (params : List String) (kwargNames : List String)
    (run : Unit → EditorResult) : EditorResult :=
  if kwargNames.all (fun k => params.contains k) then run ()
  else .raisesExn "refine_resume_data() got an unexpected keyword argument"

/-- Python truthiness of a JSON-compatible value (`if not updated_data:`,
line 273); a non-integral number is falsy iff its mantissa digits are
all zero. -/
def jsonTruthy : Json → Bool
  | .null => false
  | .bool b => b
  | .num n => n ≠ 0
  | .numF l =>
    if l = "NaN" || l = "Infinity" || l = "-Infinity" then true
    else !((l.toList.takeWhile (fun c => c ≠ 'e' && c ≠ 'E')).all
            (fun c => !c.isDigit || c = '0'))
  | .str s => s ≠ ""
  | .arr xs => !xs.isEmpty
  | .obj ms => !ms.isEmpty

/-- What the `/refine` endpoint returns: an `{"error": ...}` body or a
`{"resume_data": ..., "session_id": ...}` body. -/
inductive RefineOutcome where
  | errorResp (msg : String) : RefineOutcome
  | success (data : Json) (sid : String) : RefineOutcome

/-- `/refine` (lines 243-286), parametrized by the behaviour the
editor agent's body would have: resolve the session, record the user
message, compute the chat context, make the editor call (which, per
the declared parameters, raises `TypeError` on the `chat_context`
keyword), and on the never-reached success path record the assistant
message carrying the document's `_reasoning`. `now1`/`now2` are the
instants of the two potential `add_message` calls. -/
def refine_cv
    (agentRun : Json → String → Option String → String → EditorResult)
    (req : RefineRequest) (fresh now1 now2 : String) (m : ChatManager) :
    RefineOutcome × ChatManager :=
  let sid := resolveSessionId req.session_id fresh
  let m := ensureSession m sid
  let m := m.add_message sid "user" req.user_request "edit" none now1
  let chat_context := m.format_for_prompt sid (some 15) true
  let callResult :=
    callWithKeywords refine_resume_data_params ["chat_context"]
      (fun _ =>
        agentRun req.resume_data req.user_request req.image_base64 chat_context)
  match callResult with
  | .raisesExn e => (.errorResp ("Refinement failed: " ++ e), m)
  | .noneResult => (.errorResp "AI could not process the revision.", m)
  | .doc d =>
    if jsonTruthy d then
      match d with
      | Json.obj ms =>
        let reasoning := match jLookup "_reasoning" ms with
          | some (Json.str r) => r
          | some v => pyStr v
          | none => "Applied changes to CV"
        let m := m.add_message sid "assistant" reasoning "edit" none now2
        (.success (Json.obj ms) sid, m)
      | _ =>
        (.errorResp "Refinement failed: updated_data has no attribute get", m)
    else (.errorResp "AI could not process the revision.", m)

/-! ## Supporting lemmas about the store operations -/

theorem lookupSession_setSession_self (l : List (String × List ChatMessage))
    (sid : String) (v : List ChatMessage) :
    lookupSession (setSession l sid v) sid = some v := by
  induction l with
  | nil => simp [setSession, lookupSession]
  | cons kv rest ih =>
    obtain ⟨k, v0⟩ := kv
    by_cases h : k = sid
    · subst h; simp [setSession, lookupSession]
    · simp [setSession, lookupSession, h, ih]

theorem lookupSession_setSession_ne {s sid : String} (h : s ≠ sid)
    (l : List (String × List ChatMessage)) (v : List ChatMessage) :
    lookupSession (setSession l sid v) s = lookupSession l s := by
  induction l with
  | nil =>
    simp only [setSession, lookupSession]
    simp [Ne.symm h]
  | cons kv rest ih =>
    obtain ⟨k, v0⟩ := kv
    by_cases hk : k = sid
    · subst hk
      simp [setSession, lookupSession, Ne.symm h]
    · by_cases hs : k = s
      · subst hs; simp [setSession, lookupSession, hk]
      · simp [setSession, lookupSession, hk, hs, ih]

theorem lookupSession_append_absent (l : List (String × List ChatMessage))
    (sid : String) (v : List ChatMessage) (h : lookupSession l sid = none) :
    lookupSession (l ++ [(sid, v)]) sid = some v := by
  induction l with
  | nil => simp [lookupSession]
  | cons kv rest ih =>
    obtain ⟨k, v0⟩ := kv
    by_cases hk : k = sid
    · subst hk; simp [lookupSession] at h
    · simp [lookupSession, hk] at h ⊢
      exact ih h

theorem get_history_create (m : ChatManager) (sid : String) :
    (m.create_session sid).get_history sid = m.get_history sid := by
  unfold ChatManager.create_session ChatManager.get_history
  cases hl : lookupSession m.sessions sid with
  | some v => simp [hl]
  | none => simp [hl, lookupSession_append_absent _ _ _ hl]

theorem get_history_add_message (m : ChatManager)
    (sid role content mt : String) (md : Option (List (String × Json)))
    (now : String) :
    (m.add_message sid role content mt md now).get_history sid =
      m.get_history sid ++ [⟨role, content, mt, md.getD [], now⟩] := by
  unfold ChatManager.add_message ChatManager.get_history
  cases hl : lookupSession m.sessions sid with
  | some v => simp [hl, lookupSession_setSession_self]
  | none =>
    simp only [hl, Option.isSome_none, Bool.false_eq_true, if_false]
    unfold ChatManager.create_session
    simp [hl, lookupSession_setSession_self,
      lookupSession_append_absent _ _ _ hl]

theorem get_history_ensure (m : ChatManager) (sid : String) :
    (ensureSession m sid).get_history sid = m.get_history sid := by
  unfold ensureSession
  by_cases h : (lookupSession m.sessions sid).isSome = true
  · simp [h]
  · simp [h, get_history_create]

theorem add_message_session_present (m : ChatManager)
    (sid role content mt : String) (md : Option (List (String × Json)))
    (now : String) :
    (lookupSession (m.add_message sid role content mt md now).sessions
        sid).isSome = true := by
  unfold ChatManager.add_message
  simp [lookupSession_setSession_self]

theorem get_history_single (sid : String) (l : List ChatMessage) :
    ChatManager.get_history ⟨[(sid, l)]⟩ sid = l := by
  simp [ChatManager.get_history, lookupSession]

/-! ## Theorems -/

/-- C5. `format_for_prompt` filters system messages BEFORE applying the
`max_messages` suffix window: with `include_system = false` the output
over any history equals the output with `include_system = true` over
the pre-filtered history (so filtered-out messages never count toward
the cap); and with `max_messages = 2` on any 5-message session the
output equals the output over only the last two messages, whatever
their roles. -/
theorem format_for_prompt_filters_before_window :
    (∀ (sid : String) (msgs : List ChatMessage) (maxM : Option Nat),
        ChatManager.format_for_prompt ⟨[(sid, msgs)]⟩ sid maxM false =
          ChatManager.format_for_prompt
            ⟨[(sid, msgs.filter (fun m => m.role ≠ "system"))]⟩ sid maxM true) ∧
    (∀ (sid : String) (m1 m2 m3 m4 m5 : ChatMessage),
        ChatManager.format_for_prompt ⟨[(sid, [m1, m2, m3, m4, m5])]⟩ sid
            (some 2) true =
          ChatManager.format_for_prompt ⟨[(sid, [m4, m5])]⟩ sid none true) := by
  constructor
  · intro sid msgs maxM
    have hsel : selectForPrompt msgs maxM false =
        selectForPrompt (msgs.filter (fun m => m.role ≠ "system")) maxM true :=
      rfl
    simp only [ChatManager.format_for_prompt, get_history_single, hsel]
  · intro sid m1 m2 m3 m4 m5
    have h1 : selectForPrompt [m1, m2, m3, m4, m5] (some 2) true =
        [m4, m5] := rfl
    have h2 : selectForPrompt [m4, m5] none true = [m4, m5] := rfl
    simp only [ChatManager.format_for_prompt, get_history_single, h1, h2]

/-- C9. A `max_messages` of `0` is falsy in Python (`if max_messages:`),
so both formatters treat it exactly like `None` (all messages are
kept), while any positive limit `n + 1` keeps only the last `n + 1`
messages. -/
theorem zero_message_limit_means_no_limit :
    (∀ (sid : String) (msgs : List ChatMessage) (inc : Bool),
        ChatManager.format_for_prompt ⟨[(sid, msgs)]⟩ sid (some 0) inc =
          ChatManager.format_for_prompt ⟨[(sid, msgs)]⟩ sid none inc) ∧
    (∀ (sid : String) (msgs : List ChatMessage),
        ChatManager.format_for_gemini ⟨[(sid, msgs)]⟩ sid (some 0) =
          ChatManager.format_for_gemini ⟨[(sid, msgs)]⟩ sid none) ∧
    (∀ (sid : String) (msgs : List ChatMessage) (n : Nat),
        ChatManager.format_for_gemini ⟨[(sid, msgs)]⟩ sid (some (n + 1)) =
          ChatManager.format_for_gemini ⟨[(sid, lastN (n + 1) msgs)]⟩ sid
            none) := by
  refine ⟨?_, ?_, ?_⟩
  · intro sid msgs inc
    have hsel : ∀ l : List ChatMessage,
        selectForPrompt l (some 0) inc = selectForPrompt l none inc :=
      fun l => rfl
    simp only [ChatManager.format_for_prompt, get_history_single, hsel]
  · intro sid msgs
    simp only [ChatManager.format_for_gemini, get_history_single]
    simp
  · intro sid msgs n
    simp only [ChatManager.format_for_gemini, get_history_single]
    simp

/-- C6. `format_for_gemini` returns the (suffix-windowed) messages in
order under the role mapping — a `system` message becomes a user turn
with the visible `[SYSTEM CONTEXT]` tag, an `assistant` message a
`model` turn with unchanged content, a `user` message a user turn with
unchanged content — and on the session built by appending
`(user, "build CV")` then `(assistant, "done")` (at any instants
`t1`, `t2`) it returns exactly the two expected turns. -/
theorem format_for_gemini_role_mapping_and_scenario (t1 t2 : String) :
    (∀ (sid : String) (msgs : List ChatMessage),
        ChatManager.format_for_gemini ⟨[(sid, msgs)]⟩ sid none =
          msgs.map geminiTurn) ∧
    (∀ msg : ChatMessage, msg.role = "system" →
        geminiTurn msg = ⟨"user", [⟨"[SYSTEM CONTEXT] " ++ msg.content⟩]⟩) ∧
    (∀ msg : ChatMessage, msg.role = "assistant" →
        geminiTurn msg = ⟨"model", [⟨msg.content⟩]⟩) ∧
    (∀ msg : ChatMessage, msg.role = "user" →
        geminiTurn msg = ⟨"user", [⟨msg.content⟩]⟩) ∧
    ChatManager.format_for_gemini
        ((((ChatManager.mk []).create_session "s1").add_message
            "s1" "user" "build CV" "text" none t1).add_message
            "s1" "assistant" "done" "text" none t2) "s1" none =
      [⟨"user", [⟨"build CV"⟩]⟩, ⟨"model", [⟨"done"⟩]⟩] := by
  refine ⟨?_, ?_, ?_, ?_, ?_⟩
  · intro sid msgs
    simp only [ChatManager.format_for_gemini, get_history_single]
  · intro msg h
    simp [geminiTurn, h]
  · intro msg h
    simp [geminiTurn, h]
  · intro msg h
    simp [geminiTurn, h]
  · simp [ChatManager.format_for_gemini, ChatManager.get_history,
      ChatManager.add_message, ChatManager.create_session, lookupSession,
      setSession, geminiTurn]

/-- Closed witness for C6 discharging each role-mapping hypothesis at a
concrete message. -/
theorem format_for_gemini_role_mapping_and_scenario_witness :
    geminiTurn ⟨"system", "ctx", "text", [], "t"⟩ =
        ⟨"user", [⟨"[SYSTEM CONTEXT] " ++ "ctx"⟩]⟩ ∧
    geminiTurn ⟨"assistant", "done", "text", [], "t"⟩ =
        ⟨"model", [⟨"done"⟩]⟩ ∧
    geminiTurn ⟨"user", "hi", "text", [], "t"⟩ = ⟨"user", [⟨"hi"⟩]⟩ :=
  ⟨(format_for_gemini_role_mapping_and_scenario "t1" "t2").2.1 _ rfl,
   (format_for_gemini_role_mapping_and_scenario "t1" "t2").2.2.1 _ rfl,
   (format_for_gemini_role_mapping_and_scenario "t1" "t2").2.2.2.1 _ rfl⟩

theorem from_dict_to_dict (now : String) (msg : ChatMessage) :
    ChatMessage.from_dict now msg.to_dict = some msg := by
  simp [ChatMessage.from_dict, ChatMessage.to_dict, jLookup]

theorem fromDictList_map_to_dict (now : String) (msgs : List ChatMessage) :
    fromDictList now (msgs.map ChatMessage.to_dict) = some msgs := by
  induction msgs with
  | nil => rfl
  | cons msg rest ih =>
    simp [fromDictList, from_dict_to_dict, ih]

/-- C10. Importing a session's own export leaves every session's
history observationally unchanged: the import succeeds and rebuilds the
very same ordered message list (each message keeping its role, content,
message type, metadata and timestamp), and every lookup through
`get_history` afterwards agrees with the original store. -/
theorem export_import_round_trip (m : ChatManager) (sid now : String) :
    m.import_session sid (m.export_session sid) now =
      some ⟨setSession m.sessions sid (m.get_history sid)⟩ ∧
    ∀ s : String,
      (ChatManager.mk (setSession m.sessions sid
          (m.get_history sid))).get_history s = m.get_history s := by
  constructor
  · simp only [ChatManager.import_session, ChatManager.export_session,
      ChatManager.get_history_dict, fromDictList_map_to_dict, Option.map_some]
    rfl
  · intro s
    by_cases h : s = sid
    · subst h
      simp [ChatManager.get_history, lookupSession_setSession_self]
    · simp [ChatManager.get_history, lookupSession_setSession_ne h]

/-- Counterexample to C7 as stated: on an empty store, supplying the
unknown id `"ghost"` to `/refine` (and `/reorder`) resolves to
`"ghost"` itself — not to the freshly minted identifier — and the user
message is recorded under that caller-supplied unknown key. -/
theorem unknown_caller_id_is_used_verbatim :
    resolveSessionId (some "ghost") "3f2b-fresh-uuid" = "ghost" ∧
    ("ghost" : String) ≠ "3f2b-fresh-uuid" ∧
    lookupSession (ChatManager.mk []).sessions "ghost" = none ∧
    (refineSessionSetup ⟨Json.obj [], "make it shorter", none, some "ghost"⟩
        "3f2b-fresh-uuid" (ChatManager.mk []) "t0").1 = "ghost" ∧
    (refineSessionSetup ⟨Json.obj [], "make it shorter", none, some "ghost"⟩
        "3f2b-fresh-uuid" (ChatManager.mk []) "t0").2.get_message_count
        "ghost" = 1 ∧
    (reorderSessionSetup ⟨"<div/>", ["skills"], some "ghost"⟩
        "3f2b-fresh-uuid" (ChatManager.mk []) "t0").1 = "ghost" := by
  refine ⟨rfl, ?_, rfl, rfl, ?_, rfl⟩
  · intro h
    simp at h
  · simp [refineSessionSetup, resolveSessionId, ensureSession,
      ChatManager.get_message_count, ChatManager.get_history,
      ChatManager.add_message, ChatManager.create_session, lookupSession,
      setSession]

/-- C7 (amended). Session resolution in `/refine` and `/reorder` uses
the caller-supplied id whenever it is present and non-empty — even if
the id is not a known session, in which case a session is created under
it — and falls back to the freshly minted identifier only when the id
is absent (or empty, which Python `or` also treats as absent); the user
message is then recorded under the resolved id, whose session exists
afterwards, growing its message count by exactly one. -/
theorem session_resolution_and_recording
    (sidOpt : Option String) (s fresh now : String) (m : ChatManager)
    (req : RefineRequest) (rreq : ReorderRequest)
    (hreq : req.session_id = sidOpt) (hrreq : rreq.session_id = sidOpt) :
    (sidOpt = some s → s ≠ "" → resolveSessionId sidOpt fresh = s) ∧
    (sidOpt = none → resolveSessionId sidOpt fresh = fresh) ∧
    (sidOpt = some "" → resolveSessionId sidOpt fresh = fresh) ∧
    (refineSessionSetup req fresh m now).1 = resolveSessionId sidOpt fresh ∧
    (lookupSession (refineSessionSetup req fresh m now).2.sessions
        (resolveSessionId sidOpt fresh)).isSome = true ∧
    (refineSessionSetup req fresh m now).2.get_message_count
        (resolveSessionId sidOpt fresh) =
      m.get_message_count (resolveSessionId sidOpt fresh) + 1 ∧
    (reorderSessionSetup rreq fresh m now).1 = resolveSessionId sidOpt fresh ∧
    (reorderSessionSetup rreq fresh m now).2.get_message_count
        (resolveSessionId sidOpt fresh) =
      m.get_message_count (resolveSessionId sidOpt fresh) + 1 := by
  refine ⟨?_, ?_, ?_, ?_, ?_, ?_, ?_, ?_⟩
  · intro h hs
    subst h
    simp [resolveSessionId, hs]
  · intro h
    subst h
    rfl
  · intro h
    subst h
    rfl
  · simp [refineSessionSetup, hreq]
  · simp [refineSessionSetup, hreq, add_message_session_present]
  · simp [refineSessionSetup, hreq, ChatManager.get_message_count,
      get_history_add_message, get_history_ensure]
  · simp [reorderSessionSetup, hrreq]
  · simp [reorderSessionSetup, hrreq, ChatManager.get_message_count,
      get_history_add_message, get_history_ensure]

/-- Closed witness for C7 (amended) at a concrete request pair carrying
the non-empty id `"abc"` over the empty store. -/
theorem session_resolution_and_recording_witness :
    ((some "abc" = some "abc" → "abc" ≠ "" →
        resolveSessionId (some "abc") "f-1" = "abc") ∧
    (some "abc" = none → resolveSessionId (some "abc") "f-1" = "f-1") ∧
    (some "abc" = some "" → resolveSessionId (some "abc") "f-1" = "f-1") ∧
    (refineSessionSetup ⟨Json.obj [], "r", none, some "abc"⟩ "f-1"
        (ChatManager.mk []) "t").1 = resolveSessionId (some "abc") "f-1" ∧
    (lookupSession (refineSessionSetup ⟨Json.obj [], "r", none, some "abc"⟩
        "f-1" (ChatManager.mk []) "t").2.sessions
        (resolveSessionId (some "abc") "f-1")).isSome = true ∧
    (refineSessionSetup ⟨Json.obj [], "r", none, some "abc"⟩ "f-1"
        (ChatManager.mk []) "t").2.get_message_count
        (resolveSessionId (some "abc") "f-1") =
      (ChatManager.mk []).get_message_count
        (resolveSessionId (some "abc") "f-1") + 1 ∧
    (reorderSessionSetup ⟨"<div/>", ["a"], some "abc"⟩ "f-1"
        (ChatManager.mk []) "t").1 = resolveSessionId (some "abc") "f-1" ∧
    (reorderSessionSetup ⟨"<div/>", ["a"], some "abc"⟩ "f-1"
        (ChatManager.mk []) "t").2.get_message_count
        (resolveSessionId (some "abc") "f-1") =
      (ChatManager.mk []).get_message_count
        (resolveSessionId (some "abc") "f-1") + 1) :=
  session_resolution_and_recording (some "abc") "abc" "f-1" "t"
    (ChatManager.mk []) ⟨Json.obj [], "r", none, some "abc"⟩
    ⟨"<div/>", ["a"], some "abc"⟩ rfl rfl

/-- C8. The `/refine` endpoint calls `refine_resume_data` with the
keyword argument `chat_context`, which the function (editor.py line 10)
does not declare; the call therefore raises `TypeError` for EVERY
behaviour the editor agent's body could have — even one that would
return a usable document — so the endpoint always answers with the
error response, the assistant message is never appended, and the
session's message count grows by exactly one (the user message). -/
theorem refine_call_raises_type_error_for_any_agent
    (agentRun : Json → String → Option String → String → EditorResult)
    (req : RefineRequest) (fresh now1 now2 : String) (m : ChatManager) :
    (refine_cv agentRun req fresh now1 now2 m).1 =
      .errorResp ("Refinement failed: " ++
        "refine_resume_data() got an unexpected keyword argument") ∧
    (refine_cv agentRun req fresh now1 now2 m).2.get_message_count
        (resolveSessionId req.session_id fresh) =
      m.get_message_count (resolveSessionId req.session_id fresh) + 1 := by
  constructor
  · simp [refine_cv, callWithKeywords, refine_resume_data_params]
  · simp [refine_cv, callWithKeywords, refine_resume_data_params,
      ChatManager.get_message_count, get_history_add_message,
      get_history_ensure]

end CvGen
